import Mathlib

/-!
Verification of the record-harvesting engine of Extractor_V18.py.

The Python source is shallowly embedded: every definition below mirrors a
function (or the relevant slice of a method) of the class SAPBrowser in
src/Extractor_V18.py.  Selenium calls are abstracted as data supplied by the
environment (cell texts, extractor outcomes, probe counts, per-iteration
scroll events); all string operations follow Python semantics on ASCII data
(str.upper as per-character uppercase, the "in" operator as substring search,
str.strip as trimming, truthiness of a string as non-emptiness).
-/

namespace Extractor

/-- Does the second list start with the first one?  Backs the substring
search used to embed the Python "in" operator on strings. -/
def listStarts : List Char → List Char → Bool
  | [], _ => true
  | _ :: _, [] => false
  | p :: ps, c :: cs => p = c && listStarts ps cs

/-- Does the pattern occur as a contiguous run inside the list? -/
def subSearch (pat : List Char) : List Char → Bool
  | [] => pat.isEmpty
  | c :: rest => listStarts pat (c :: rest) || subSearch pat rest

/-- Python: pat in s (substring containment). -/
def containsSub (s pat : String) : Bool :=
  subSearch pat.data s.data

/-- Python: s.upper() restricted to ASCII, as in all strings the code
compares. -/
def strUpper (s : String) : String :=
  ⟨s.data.map Char.toUpper⟩

/-- ASCII whitespace, the characters str.strip removes from the data the
extractor sees. -/
def isSpc (c : Char) : Bool :=
  c == ' ' || c == '\t' || c == '\n' || c == '\r' || c == '\x0b' || c == '\x0c'

/-- Python: s.strip(). -/
def strip (s : String) : String :=
  ⟨((s.data.dropWhile isSpc).reverse.dropWhile isSpc).reverse⟩

/-- Python: any(keyword in s.upper() for keyword in keys). -/
def hasAnyKw (s : String) (keys : List String) : Bool :=
  keys.any (fun k => containsSub (strUpper s) k)

/-- The status vocabulary scanned by _validate_and_correct_issue_data and
_normalize_status (source lines 2946, 2627-2641). -/
def statusKeywords : List String :=
  ["OPEN", "DONE", "IN PROGRESS", "READY", "ACCEPTED", "DRAFT", "CLOSED"]

/-- The priority vocabulary of _validate_and_correct_issue_data
(source line 2962). -/
def priorityKeywords : List String :=
  ["HIGH", "MEDIUM", "LOW", "VERY HIGH"]

/-- The month tokens used as the date-shape heuristic (source line 2977). -/
def monthKeywords : List String :=
  ["JAN", "FEB", "MAR", "APR", "MAY", "JUN", "JUL", "AUG", "SEP", "OCT",
   "NOV", "DEC"]

/-- One issue record: the eight fixed string fields of the RawRecord /
Record dictionaries built by the extractor. -/
structure IssueData where
  title : String
  type : String
  priority : String
  status : String
  deadline : String
  dueDate : String
  createdBy : String
  createdOn : String
deriving DecidableEq, Repr

/-- Step 1 of _validate_and_correct_issue_data: clear Type when it
duplicates Title (source lines 2941-2943). -/
def step1 (d : IssueData) : IssueData :=
  if d.type == d.title then { d with type := "" } else d

/-- Step 2: when Status carries no status keyword, swap it with the first
of Priority, Type, Deadline that carries one (source lines 2945-2958). -/
def step2 (d : IssueData) : IssueData :=
  if d.status != "" && !(hasAnyKw d.status statusKeywords) then
    if d.priority != "" && hasAnyKw d.priority statusKeywords then
      { d with status := d.priority, priority := d.status }
    else if d.type != "" && hasAnyKw d.type statusKeywords then
      { d with status := d.type, type := d.status }
    else if d.deadline != "" && hasAnyKw d.deadline statusKeywords then
      { d with status := d.deadline, deadline := d.status }
    else d
  else d

/-- Step 3: when Priority carries no priority keyword, swap it with the
first of Type, Status that carries one (source lines 2960-2973). -/
def step3 (d : IssueData) : IssueData :=
  if d.priority != "" && !(hasAnyKw d.priority priorityKeywords) then
    if d.type != "" && hasAnyKw d.type priorityKeywords then
      { d with priority := d.type, type := d.priority }
    else if d.status != "" && hasAnyKw d.status priorityKeywords then
      { d with priority := d.status, status := d.priority }
    else d
  else d

/-- Step 4 for the Deadline slot of the date-field loop: when Deadline is
non-empty and not date-shaped, swap it with the first of Status, Priority,
Type that is date-shaped (source lines 2975-2991, first pass). -/
def step4dl (d : IssueData) : IssueData :=
  if d.deadline != "" && !(hasAnyKw d.deadline monthKeywords) then
    if d.status != "" && hasAnyKw d.status monthKeywords then
      { d with deadline := d.status, status := d.deadline }
    else if d.priority != "" && hasAnyKw d.priority monthKeywords then
      { d with deadline := d.priority, priority := d.deadline }
    else if d.type != "" && hasAnyKw d.type monthKeywords then
      { d with deadline := d.type, type := d.deadline }
    else d
  else d

/-- Step 4, second pass of the loop: the Due Date slot. -/
def step4dd (d : IssueData) : IssueData :=
  if d.dueDate != "" && !(hasAnyKw d.dueDate monthKeywords) then
    if d.status != "" && hasAnyKw d.status monthKeywords then
      { d with dueDate := d.status, status := d.dueDate }
    else if d.priority != "" && hasAnyKw d.priority monthKeywords then
      { d with dueDate := d.priority, priority := d.dueDate }
    else if d.type != "" && hasAnyKw d.type monthKeywords then
      { d with dueDate := d.type, type := d.dueDate }
    else d
  else d

/-- Step 4, third pass of the loop: the Created On slot. -/
def step4co (d : IssueData) : IssueData :=
  if d.createdOn != "" && !(hasAnyKw d.createdOn monthKeywords) then
    if d.status != "" && hasAnyKw d.status monthKeywords then
      { d with createdOn := d.status, status := d.createdOn }
    else if d.priority != "" && hasAnyKw d.priority monthKeywords then
      { d with createdOn := d.priority, priority := d.createdOn }
    else if d.type != "" && hasAnyKw d.type monthKeywords then
      { d with createdOn := d.type, type := d.createdOn }
    else d
  else d

/-- Step 5: a date-shaped Created By is moved into the first empty date
field and cleared (source lines 2993-3002). -/
def step5 (d : IssueData) : IssueData :=
  if d.createdBy != "" && hasAnyKw d.createdBy monthKeywords then
    if d.deadline == "" then
      { d with deadline := d.createdBy, createdBy := "" }
    else if d.dueDate == "" then
      { d with dueDate := d.createdBy, createdBy := "" }
    else if d.createdOn == "" then
      { d with createdOn := d.createdBy, createdBy := "" }
    else d
  else d

/-- Step 6: the whole-row shift pattern rotates the seven non-Title fields
one position left (source lines 3004-3018).  The Python assignments run
top-to-bottom, each reading a field not yet overwritten, so the
simultaneous update below is the exact effect. -/
def step6 (d : IssueData) : IssueData :=
  if d.type == d.title && d.priority == d.type && d.status == d.priority then
    { d with
      type := d.priority
      priority := d.status
      status := d.deadline
      deadline := d.dueDate
      dueDate := d.createdBy
      createdBy := d.createdOn
      createdOn := "" }
  else d

/-- _validate_and_correct_issue_data (source lines 2931-3020): the six
correction steps applied in program order.  The required-fields defaulting
at the top of the method is realized by the totality of IssueData. -/
def validate (d : IssueData) : IssueData :=
  step6 (step5 (step4co (step4dd (step4dl (step3 (step2 (step1 d)))))))

/-- _normalize_status (source lines 2621-2643). -/
def normalizeStatus (s : String) : String :=
  if s == "" then ""
  else
    let u := strUpper s
    if containsSub u "OPEN" then "OPEN"
    else if containsSub u "DONE" then "DONE"
    else if containsSub u "IN PROGRESS" then "IN PROGRESS"
    else if containsSub u "READY" then
      if containsSub u "PUBLISH" then "READY FOR PUBLISHING" else "READY"
    else if containsSub u "ACCEPTED" then "ACCEPTED"
    else if containsSub u "DRAFT" then "DRAFT"
    else if containsSub u "CLOSED" then "CLOSED"
    else s

/-- _detect_table_type (source lines 1808-1835).  The three
driver.find_elements probes are abstracted as their element counts; none
models an exception anywhere in the probing (the three calls all run
before any count is inspected, so a failure yields "unknown" regardless
of the counts already obtained). -/
def detectTableType (probe : Option (Nat × Nat × Nat)) : String :=
  match probe with
  | none => "unknown"
  | some (standardUi5, responsiveTable, gridTable) =>
    if standardUi5 > 0 then "standard_ui5"
    else if responsiveTable > 0 then "responsive_table"
    else if gridTable > 0 then "grid_table"
    else "unknown"

/-- _should_finish_scrolling (source lines 2197-2240).  Python float
literals 0.9 and the percentages are modelled as exact rationals; the
except-branch of the source is unreachable here because the embedded body
is total and division by zero is guarded exactly as in the source. -/
def shouldFinishScrolling (noChangeCount currentRowsCount totalExpected : Nat) : Bool :=
  let coverage : ℚ :=
    if totalExpected > 0 then
      (currentRowsCount : ℚ) / (totalExpected : ℚ) * 100
    else 0
  if noChangeCount ≥ 10 ∧ (currentRowsCount : ℚ) ≥ (totalExpected : ℚ) * 0.9 then
    true
  else if noChangeCount ≥ 20 then true
  else if currentRowsCount ≥ totalExpected then true
  else if coverage ≥ 95 ∧ noChangeCount ≥ 5 then true
  else false

/-- Outcome of the pagination attempt made inside the scroll loop when the
no-change streak reaches 5: the next-page click succeeded, or it was not
taken (no controls found or click returned False), or an exception was
raised inside check_for_pagination / click_pagination_next (caught by the
per-iteration handler). -/
inductive PagOutcome
  | clicked
  | noClick
  | raised

/-- What the environment does in one iteration of the scroll loop of
scroll_to_load_all_items.  scrollOk = false is an exception raised before
find_table_rows returned (scroll strategy or row query): the handler
catches it and the iteration observes nothing.  rows is the count
observed when scrollOk.  lateFail is an exception in the adaptive-wait /
sleep tail of the iteration; it is caught after every state update and
break check, so it only skips the delay. -/
structure IterEvent where
  scrollOk : Bool
  rows : Nat
  pag : PagOutcome
  lateFail : Bool

/-- The for-loop of scroll_to_load_all_items (source lines 1450-1511),
one IterEvent per iteration of range(max_attempts).  State: prev =
previous_rows_count, streak = no_change_count.  The secondary scroll
strategy and _should_finish_scrolling catch internally and
_calculate_adaptive_wait_time runs after all state updates, so neither
changes the control state beyond what is modelled. -/
def scrollLoop (hasPagination : Bool) (totalExpected : Nat) :
    Nat → Nat → List IterEvent → Nat
  | prev, _, [] => prev
  | prev, streak, e :: rest =>
    if e.scrollOk then
      let cur := e.rows
      if cur = prev then
        let streak' := streak + 1
        if hasPagination ∧ streak' ≥ 5 then
          match e.pag with
          | .clicked => scrollLoop hasPagination totalExpected prev 0 rest
          | .raised => scrollLoop hasPagination totalExpected prev streak' rest
          | .noClick =>
            if shouldFinishScrolling streak' cur totalExpected then prev
            else if cur ≥ totalExpected then cur
            else scrollLoop hasPagination totalExpected cur streak' rest
        else
          if shouldFinishScrolling streak' cur totalExpected then prev
          else if cur ≥ totalExpected then cur
          else scrollLoop hasPagination totalExpected cur streak' rest
      else
        if cur ≥ totalExpected then cur
        else scrollLoop hasPagination totalExpected cur 0 rest
    else scrollLoop hasPagination totalExpected prev streak rest

/-- scroll_to_load_all_items (source lines 1428-1515).  The pre-loop
calls (_detect_table_type, check_for_pagination,
_optimize_browser_performance) all catch internally, so the call reduces
to the loop started at previous_rows_count = 0, no_change_count = 0; the
environment supplies one IterEvent per potential iteration, so
max_attempts is the length of the event list. -/
def scrollToLoadAllItems (hasPagination : Bool) (totalExpected : Nat)
    (events : List IterEvent) : Nat :=
  scrollLoop hasPagination totalExpected 0 0 events

/-- The row count held by previous_rows_count after a prefix of iterations:
the last observed count, or the start value when nothing was observed. -/
def lastObserved (prev : Nat) : List IterEvent → Nat
  | [] => prev
  | e :: rest => lastObserved (if e.scrollOk then e.rows else prev) rest

/-- One table cell as the extractor sees it: its visible text.  A Python
None text is the empty string (both are falsy everywhere the code reads
cell text). -/
structure Cell where
  text : String
deriving DecidableEq, Repr

/-- The eight record fields, used to address assignments made through the
header map. -/
inductive FieldKey
  | title | type | priority | status | deadline | dueDate | createdBy
  | createdOn
deriving DecidableEq, Repr

/-- Assign one field of the record dictionary. -/
def setField (d : IssueData) : FieldKey → String → IssueData
  | .title, v => { d with title := v }
  | .type, v => { d with type := v }
  | .priority, v => { d with priority := v }
  | .status, v => { d with status := v }
  | .deadline, v => { d with deadline := v }
  | .dueDate, v => { d with dueDate := v }
  | .createdBy, v => { d with createdBy := v }
  | .createdOn, v => { d with createdOn := v }

/-- The header_mappings dictionary of _extract_by_headers (source lines
2300-2316), in insertion order. -/
def headerMappings : List (String × FieldKey) :=
  [("TITLE", .title), ("TYPE", .type), ("PRIORITY", .priority),
   ("STATUS", .status), ("DEADLINE", .deadline), ("DUE DATE", .dueDate),
   ("CREATED BY", .createdBy), ("CREATED ON", .createdOn),
   ("NAME", .title), ("ISSUE", .title), ("PRIO", .priority),
   ("STATE", .status), ("DUE", .dueDate)]

/-- The inner pattern loop of _extract_by_headers: first mapping whose
pattern equals or occurs inside the uppercased header name. -/
def findHeaderKey (headerUpper : String) : Option FieldKey :=
  (headerMappings.find? fun p =>
    p.1 == headerUpper || containsSub headerUpper p.1).map (·.2)

/-- Python: cells[i].text.strip() if cells[i].text else '' . -/
def cellTextAt (cells : List Cell) (i : Nat) : String :=
  let t := (cells.getD i ⟨""⟩).text
  if t != "" then strip t else ""

/-- _extract_by_headers (source lines 2279-2343): build the record from
the header-name → column-index map; when no Title was assigned, fall back
to the first cell's text or the placeholder "Issue sin título" (without a
position number).  none is the no-cells early return. -/
def extractByHeaders (cells : List Cell) (headerMap : List (String × Nat)) :
    Option IssueData :=
  if cells.isEmpty then none
  else
    let d0 : IssueData := ⟨"", "", "", "", "", "", "", ""⟩
    let d := headerMap.foldl (fun d hi =>
      if hi.2 < cells.length then
        match findHeaderKey (strUpper hi.1) with
        | some key => setField d key (cellTextAt cells hi.2)
        | none => d
      else d) d0
    let d :=
      if d.title == "" ∧ 0 < cells.length then
        { d with title :=
            if (cells.getD 0 ⟨""⟩).text != "" then strip (cells.getD 0 ⟨""⟩).text
            else "Issue sin título" }
      else d
    some d

/-- One table row as _process_table_rows sees it: its cells (as returned
by _get_row_cells) and the outcome of each per-field extraction cascade.
_extract_type receives the already-extracted title, hence the function
field; the source of _extract_type (lines 2490-2526) guards every return
with a check against that title, a contract carried separately as
ExtractTypeGuarded and assumed where a claim depends on it. -/
structure Row where
  cells : List Cell
  extTitle : String
  extType : String → String
  extPriority : String
  extStatus : String
  extDeadline : String
  extDueDate : String
  extCreatedBy : String
  extCreatedOn : String

/-- The return contract of _extract_type (source lines 2490-2526): every
return path yields either the empty string or a stripped text that was
checked to differ from the passed title. -/
def ExtractTypeGuarded (row : Row) : Prop :=
  ∀ t : String, row.extType t = "" ∨ row.extType t ≠ t

/-- The title of the heuristic path of _process_table_rows (source lines
2375-2379): the extracted title, or the synthesized placeholder with the
1-based row position. -/
def heuristicTitle (index : Nat) (row : Row) : String :=
  if row.extTitle == "" then "Issue sin título #" ++ toString (index + 1)
  else row.extTitle

/-- The direct-by-cells record of _process_table_rows (source lines
2404-2419), built positionally when Type equals Title and the row has at
least 8 cells. -/
def directByCells (cells : List Cell) (title : String) : IssueData where
  title := if (cells.getD 0 ⟨""⟩).text != "" then strip (cells.getD 0 ⟨""⟩).text else title
  type := if 1 < cells.length ∧ (cells.getD 1 ⟨""⟩).text != "" then strip (cells.getD 1 ⟨""⟩).text else ""
  priority := if 2 < cells.length ∧ (cells.getD 2 ⟨""⟩).text != "" then strip (cells.getD 2 ⟨""⟩).text else ""
  status := if 3 < cells.length ∧ (cells.getD 3 ⟨""⟩).text != "" then strip (cells.getD 3 ⟨""⟩).text else ""
  deadline := if 4 < cells.length ∧ (cells.getD 4 ⟨""⟩).text != "" then strip (cells.getD 4 ⟨""⟩).text else ""
  dueDate := if 5 < cells.length ∧ (cells.getD 5 ⟨""⟩).text != "" then strip (cells.getD 5 ⟨""⟩).text else ""
  createdBy := if 6 < cells.length ∧ (cells.getD 6 ⟨""⟩).text != "" then strip (cells.getD 6 ⟨""⟩).text else ""
  createdOn := if 7 < cells.length ∧ (cells.getD 7 ⟨""⟩).text != "" then strip (cells.getD 7 ⟨""⟩).text else ""

/-- The heuristic path of _process_table_rows for one row (source lines
2374-2425): per-field extraction, placeholder title, the direct-by-cells
override on the Type = Title shift signature, then
_validate_and_correct_issue_data. -/
def heuristicRecord (index : Nat) (row : Row) : IssueData :=
  let title := heuristicTitle index row
  let typeText := row.extType title
  let d : IssueData :=
    ⟨title, typeText, row.extPriority, row.extStatus, row.extDeadline,
     row.extDueDate, row.extCreatedBy, row.extCreatedOn⟩
  let d :=
    if typeText == title ∧ 8 ≤ row.cells.length then
      directByCells row.cells title
    else d
  validate d

/-- One iteration of the row loop of _process_table_rows (source lines
2357-2425): the header-based path when the header map has at least four
entries and yields a record with a non-empty Title, else the heuristic
path. -/
def processRow (headerMap : List (String × Nat)) (index : Nat) (row : Row) :
    IssueData :=
  if 4 ≤ headerMap.length then
    match extractByHeaders row.cells headerMap with
    | some d => if d.title != "" then validate d else heuristicRecord index row
    | none => heuristicRecord index row
  else heuristicRecord index row

/-- The enumerate loop of _process_table_rows with its running index. -/
def processTableRowsAux (headerMap : List (String × Nat)) :
    Nat → List Row → List IssueData
  | _, [] => []
  | index, r :: rs =>
    processRow headerMap index r :: processTableRowsAux headerMap (index + 1) rs

/-- _process_table_rows (source lines 2351-2436).  seenTitles is received
and never read, exactly as in the source ("ya no para filtrar
duplicados"). -/
def processTableRows (headerMap : List (String × Nat))
    (seenTitles : List String) (rows : List Row) : List IssueData :=
  processTableRowsAux headerMap 0 rows

/-- The pagination loop of extract_issues_data (source lines 1740-1790):
page_num runs from 1 with the max_pages = 20 safety cap; each page's rows
are processed, every record re-validated, and the loop stops when the
rows are empty, when there is no pagination, when a page produced no
records, or when the next-page click fails (modelled as the page list
running out). -/
def extractPagesAux (headerMap : List (String × Nat)) (hasPagination : Bool) :
    List (List Row) → Nat → List IssueData
  | [], _ => []
  | page :: rest, pageNum =>
    if 20 < pageNum then []
    else if page.isEmpty then []
    else
      let pageIssuesData := processTableRows headerMap [] page
      let correctedData := pageIssuesData.map validate
      if hasPagination = false ∨ pageIssuesData.isEmpty then correctedData
      else
        match rest with
        | [] => correctedData
        | _ :: _ => correctedData ++ extractPagesAux headerMap hasPagination rest (pageNum + 1)

/-- extract_issues_data (source lines 1713-1794), from the point where the
harvest loop starts: the header map and the per-page rows are environment
data; the single seen_titles set created at line 1736 is passed unused. -/
def extractIssuesData (headerMap : List (String × Nat)) (hasPagination : Bool)
    (pages : List (List Row)) : List IssueData :=
  extractPagesAux headerMap hasPagination pages 1

/-! Helper lemmas about the validator. -/

theorem step1_title (d : IssueData) : (step1 d).title = d.title := by
  unfold step1; split <;> rfl

theorem step2_title (d : IssueData) : (step2 d).title = d.title := by
  unfold step2; split <;> first | rfl | (split <;> first | rfl | (split <;> first | rfl | (split <;> rfl)))

theorem step3_title (d : IssueData) : (step3 d).title = d.title := by
  unfold step3; split <;> first | rfl | (split <;> first | rfl | (split <;> rfl))

theorem step4dl_title (d : IssueData) : (step4dl d).title = d.title := by
  unfold step4dl; split <;> first | rfl | (split <;> first | rfl | (split <;> first | rfl | (split <;> rfl)))

theorem step4dd_title (d : IssueData) : (step4dd d).title = d.title := by
  unfold step4dd; split <;> first | rfl | (split <;> first | rfl | (split <;> first | rfl | (split <;> rfl)))

theorem step4co_title (d : IssueData) : (step4co d).title = d.title := by
  unfold step4co; split <;> first | rfl | (split <;> first | rfl | (split <;> first | rfl | (split <;> rfl)))

theorem step5_title (d : IssueData) : (step5 d).title = d.title := by
  unfold step5; split <;> first | rfl | (split <;> first | rfl | (split <;> first | rfl | (split <;> rfl)))

theorem step6_title (d : IssueData) : (step6 d).title = d.title := by
  unfold step6; split <;> rfl

theorem validate_title (d : IssueData) : (validate d).title = d.title := by
  unfold validate
  rw [step6_title, step5_title, step4co_title, step4dd_title, step4dl_title,
    step3_title, step2_title, step1_title]

theorem step1_fields (d : IssueData) :
    (step1 d).status = d.status ∧ (step1 d).priority = d.priority ∧
    (step1 d).deadline = d.deadline ∧ (step1 d).dueDate = d.dueDate ∧
    (step1 d).createdBy = d.createdBy ∧ (step1 d).createdOn = d.createdOn := by
  unfold step1; split <;> exact ⟨rfl, rfl, rfl, rfl, rfl, rfl⟩

theorem step2_skip (d : IssueData)
    (h : d.status = "" ∨ hasAnyKw d.status statusKeywords = true) :
    step2 d = d := by
  unfold step2
  rcases h with h | h <;> simp [h]

theorem step3_skip (d : IssueData)
    (h : d.priority = "" ∨ hasAnyKw d.priority priorityKeywords = true) :
    step3 d = d := by
  unfold step3
  rcases h with h | h <;> simp [h]

theorem step4dl_skip (d : IssueData)
    (h : d.deadline = "" ∨ hasAnyKw d.deadline monthKeywords = true) :
    step4dl d = d := by
  unfold step4dl
  rcases h with h | h <;> simp [h]

theorem step4dd_skip (d : IssueData)
    (h : d.dueDate = "" ∨ hasAnyKw d.dueDate monthKeywords = true) :
    step4dd d = d := by
  unfold step4dd
  rcases h with h | h <;> simp [h]

theorem step4co_skip (d : IssueData)
    (h : d.createdOn = "" ∨ hasAnyKw d.createdOn monthKeywords = true) :
    step4co d = d := by
  unfold step4co
  rcases h with h | h <;> simp [h]

theorem step5_skip (d : IssueData)
    (h : hasAnyKw d.createdBy monthKeywords = false) :
    step5 d = d := by
  unfold step5; simp [h]

theorem step6_skip (d : IssueData) (h : d.type ≠ d.title) : step6 d = d := by
  unfold step6
  have hb : (d.type == d.title) = false := by simp [h]
  simp [hb]

/-- A record whose non-Title fields already carry the shapes the validator
checks for: the swap steps 2-5 and the rotation step 6 leave it alone. -/
def Consistent (d : IssueData) : Prop :=
  d.title ≠ "" ∧
  (d.status = "" ∨ hasAnyKw d.status statusKeywords = true) ∧
  (d.priority = "" ∨ hasAnyKw d.priority priorityKeywords = true) ∧
  (d.deadline = "" ∨ hasAnyKw d.deadline monthKeywords = true) ∧
  (d.dueDate = "" ∨ hasAnyKw d.dueDate monthKeywords = true) ∧
  (d.createdOn = "" ∨ hasAnyKw d.createdOn monthKeywords = true) ∧
  hasAnyKw d.createdBy monthKeywords = false

theorem step1_type_ne_title (d : IssueData) (h : d.title ≠ "") :
    (step1 d).type ≠ (step1 d).title := by
  unfold step1
  split
  · simpa using fun hc => h hc.symm
  · rename_i hb
    simpa using fun hc => hb (by simp [hc])

theorem validate_of_consistent (d : IssueData) (h : Consistent d) :
    validate d = step1 d := by
  obtain ⟨h1, h2, h3, h4, h5, h6, h7⟩ := h
  obtain ⟨f1, f2, f3, f4, f5, f6⟩ := step1_fields d
  unfold validate
  rw [step2_skip _ (by rw [f1]; exact h2),
    step3_skip _ (by rw [f2]; exact h3),
    step4dl_skip _ (by rw [f3]; exact h4),
    step4dd_skip _ (by rw [f4]; exact h5),
    step4co_skip _ (by rw [f6]; exact h6),
    step5_skip _ (by rw [f5]; exact h7),
    step6_skip _ (step1_type_ne_title d h1)]

theorem consistent_step1 (d : IssueData) (h : Consistent d) :
    Consistent (step1 d) := by
  obtain ⟨h1, h2, h3, h4, h5, h6, h7⟩ := h
  obtain ⟨f1, f2, f3, f4, f5, f6⟩ := step1_fields d
  exact ⟨by rw [step1_title]; exact h1, by rw [f1]; exact h2,
    by rw [f2]; exact h3, by rw [f3]; exact h4, by rw [f4]; exact h5,
    by rw [f6]; exact h6, by rw [f5]; exact h7⟩

theorem step1_idem (d : IssueData) (h : d.title ≠ "") :
    step1 (step1 d) = step1 d := by
  unfold step1
  by_cases hc : (d.type == d.title) = true
  · simp only [hc, if_pos]
    have : (("" : String) == d.title) = false := by simp [Ne.symm h]
    simp [this]
  · simp only [Bool.not_eq_true] at hc
    simp [hc]

/-- The left rotation that claim C3 predicates of every record matching the
shift signature: Type←Priority, Priority←Status, Status←Deadline,
Deadline←DueDate, DueDate←CreatedBy, CreatedBy←CreatedOn, CreatedOn←"". -/
def rotateLeftClaim (d : IssueData) : IssueData :=
  ⟨d.title, d.priority, d.status, d.deadline, d.dueDate, d.createdBy,
   d.createdOn, ""⟩

/-- The whole-row shift signature tested by step 6 (source lines
3006-3008): Type = Title, Priority = Type, Status = Priority. -/
def ShiftSignature (d : IssueData) : Prop :=
  d.type = d.title ∧ d.priority = d.type ∧ d.status = d.priority

/-- The validator up to and excluding the rotation step: steps 1-5 in
program order.  validate d = step6 (validateMid d) holds by definition. -/
def validateMid (d : IssueData) : IssueData :=
  step5 (step4co (step4dd (step4dl (step3 (step2 (step1 d))))))

theorem step6_of_signature (d : IssueData) (h : ShiftSignature d) :
    step6 d = rotateLeftClaim d := by
  obtain ⟨h1, h2, h3⟩ := h
  unfold step6 rotateLeftClaim
  rw [if_pos (by simp [h1, h2, h3])]

theorem step6_of_not_signature (d : IssueData) (h : ¬ShiftSignature d) :
    step6 d = d := by
  unfold step6
  rw [if_neg]
  intro hc
  simp only [Bool.and_eq_true, beq_iff_eq] at hc
  exact h ⟨hc.1.1, hc.1.2, hc.2⟩

/-! Claim C2: idempotence of the validator. -/

/-- C2, counterexample: the validator is not idempotent.  On the record
with Title = Status = "Hello" and Type = "OPEN", the first application
swaps Status and Type (step 2), copying the Title value into Type; the
second application then clears Type (step 1), so applying validate twice
differs from applying it once. -/
theorem c2_counterexample :
    validate (validate ⟨"Hello", "OPEN", "", "Hello", "", "", "", ""⟩) ≠
      validate ⟨"Hello", "OPEN", "", "Hello", "", "", "", ""⟩ := by decide

/-- C2, amended: the validator is idempotent on every record with a
non-empty Title whose Status, Priority and the three date fields are each
empty or already carry their expected keyword shape and whose Created By
is not date-shaped.  On such records a run of validate can only clear a
Type that duplicates Title, and a second run changes nothing. -/
theorem c2_validate_idempotent_on_consistent (d : IssueData)
    (h : Consistent d) : validate (validate d) = validate d := by
  rw [validate_of_consistent d h, validate_of_consistent _ (consistent_step1 d h),
    step1_idem d h.1]

/-- C2, witness: the amended idempotence theorem applied to a concrete
consistent record. -/
theorem c2_validate_idempotent_witness :
    Consistent ⟨"A", "A", "High", "OPEN", "", "", "", ""⟩ ∧
      validate (validate ⟨"A", "A", "High", "OPEN", "", "", "", ""⟩) =
        validate ⟨"A", "A", "High", "OPEN", "", "", "", ""⟩ :=
  ⟨by unfold Consistent; decide,
   c2_validate_idempotent_on_consistent _ (by unfold Consistent; decide)⟩

/-! Claim C3: the whole-row shift rotation. -/

/-- C3, counterexample: a record in which Type = Title, Priority = Type and
Status = Priority (all "X") is not rotated left: step 1 clears Type first,
the rotation pattern of step 6 no longer matches, and the result keeps
Status = "X" instead of receiving the Deadline. -/
theorem c3_counterexample :
    (let r : IssueData := ⟨"X", "X", "X", "X", "D", "", "", ""⟩
     r.type = r.title ∧ r.priority = r.type ∧ r.status = r.priority ∧
       validate r ≠ rotateLeftClaim r) := by decide

/-- Sufficient condition for the rotation: with Title, Type, Priority and
Status all empty the shift signature survives steps 1-5 (step 5 needs a
Created By that is not date-shaped), and step 6 rotates. -/
theorem rotation_on_empty_leading_fields (dl dd cb co : String)
    (h : hasAnyKw cb monthKeywords = false) :
    validate ⟨"", "", "", "", dl, dd, cb, co⟩ = ⟨"", "", "", dl, dd, cb, co, ""⟩ := by
  simp [validate, step1, step2, step3, step4dl, step4dd, step4co, step5, step6, h]

/-- C3, amended: the left rotation is applied exactly when the shift
signature holds on the record as transformed by the earlier correction
steps 1-5, not on the raw input (step 1 clears a non-empty Type equal to
Title, destroying an input signature, and steps 2-4 can re-create the
signature on other inputs).  Realizations of both kinds are included: a
record with the four leading fields empty rotates whenever its Created
By is not date-shaped, and the record
Title = Priority = Status = Deadline = "HELLO", Type = "15 MAR" rotates
with all four signature fields non-empty after step 4 swaps
Type and Deadline. -/
theorem c3_rotation_characterization :
    (∀ d : IssueData,
      (ShiftSignature (validateMid d) →
        validate d = rotateLeftClaim (validateMid d)) ∧
      (¬ShiftSignature (validateMid d) → validate d = validateMid d)) ∧
    (∀ dl dd cb co : String, hasAnyKw cb monthKeywords = false →
      validate ⟨"", "", "", "", dl, dd, cb, co⟩ =
        ⟨"", "", "", dl, dd, cb, co, ""⟩) ∧
    validate ⟨"HELLO", "15 MAR", "HELLO", "HELLO", "HELLO", "", "", ""⟩ =
      ⟨"HELLO", "HELLO", "HELLO", "15 MAR", "", "", "", ""⟩ := by
  refine ⟨?_, rotation_on_empty_leading_fields, by decide⟩
  intro d
  exact ⟨fun h => step6_of_signature (validateMid d) h,
    fun h => step6_of_not_signature (validateMid d) h⟩

/-- C3, witness: the characterization applied to concrete records, the
hypotheses discharged by evaluation. -/
theorem c3_rotation_characterization_witness :
    validate ⟨"", "", "", "", "5 Jul", "6 Jul", "john", "7 Jul"⟩ =
        ⟨"", "", "", "5 Jul", "6 Jul", "john", "7 Jul", ""⟩ ∧
      validate ⟨"A", "B", "C", "D", "", "", "", ""⟩ =
        validateMid ⟨"A", "B", "C", "D", "", "", "", ""⟩ :=
  ⟨c3_rotation_characterization.2.1 "5 Jul" "6 Jul" "john" "7 Jul" (by decide),
   (c3_rotation_characterization.1 ⟨"A", "B", "C", "D", "", "", "", ""⟩).2
     (by unfold ShiftSignature validateMid; decide)⟩

/-! Claim C7: the concrete Type-duplicates-Title scenario. -/

/-- C7: on the record whose Type duplicates the Title "Fix login bug" with
Priority "High" and Status "OPEN", the validator clears Type and keeps
every other field, in particular the Title. -/
theorem c7_type_cleared_title_kept :
    validate ⟨"Fix login bug", "Fix login bug", "High", "OPEN", "", "", "", ""⟩ =
      ⟨"Fix login bug", "", "High", "OPEN", "", "", "", ""⟩ := by decide

/-! Claim C10: the validator never writes the Title field. -/

/-- C10: every corrective action of _validate_and_correct_issue_data
assigns only the seven non-Title fields, so the returned record's Title
equals the input's Title. -/
theorem c10_validate_preserves_title (d : IssueData) :
    (validate d).title = d.title :=
  validate_title d

/-! Claim C6: the status normalizer. -/

/-- The closed vocabulary of normalized status values. -/
def statusVocabulary : List String :=
  ["OPEN", "DONE", "IN PROGRESS", "READY", "READY FOR PUBLISHING", "DRAFT",
   "CLOSED", "ACCEPTED"]

/-- C6, counterexample: an input containing both READY and PUBLISH is not
always mapped to "READY FOR PUBLISHING": the OPEN / DONE / IN PROGRESS
branches are checked first, so "done, ready to publish" normalizes to
"DONE". -/
theorem c6_counterexample :
    containsSub (strUpper "done, ready to publish") "READY" = true ∧
      containsSub (strUpper "done, ready to publish") "PUBLISH" = true ∧
      normalizeStatus "done, ready to publish" = "DONE" ∧
      normalizeStatus "done, ready to publish" ≠ "READY FOR PUBLISHING" := by
  decide

/-- C6, amended: every input containing a recognized status keyword
(case-insensitively) normalizes into the closed vocabulary; an input
containing READY and PUBLISH but none of the earlier keywords OPEN, DONE,
IN PROGRESS maps to "READY FOR PUBLISHING"; an input containing no
recognized keyword is returned unchanged; the empty input yields the
empty string. -/
theorem c6_normalize_status (s : String) :
    (hasAnyKw s statusKeywords = true → normalizeStatus s ∈ statusVocabulary) ∧
    (containsSub (strUpper s) "READY" = true →
      containsSub (strUpper s) "PUBLISH" = true →
      containsSub (strUpper s) "OPEN" = false →
      containsSub (strUpper s) "DONE" = false →
      containsSub (strUpper s) "IN PROGRESS" = false →
      normalizeStatus s = "READY FOR PUBLISHING") ∧
    (hasAnyKw s statusKeywords = false → normalizeStatus s = s) ∧
    normalizeStatus "" = "" := by
  refine ⟨?_, ?_, ?_, rfl⟩
  · intro h
    by_cases hs : (s == "") = true
    · exfalso
      have : s = "" := by simpa using hs
      rw [this] at h
      exact absurd h (by decide)
    · unfold normalizeStatus
      simp only [hs, if_false, Bool.false_eq_true]
      split_ifs <;> simp_all [statusVocabulary, hasAnyKw, statusKeywords]
  · intro h1 h2 h3 h4 h5
    have hs : (s == "") = false := by
      cases hse : (s == "")
      · rfl
      · exfalso
        have : s = "" := by simpa using hse
        rw [this] at h1
        exact absurd h1 (by decide)
    unfold normalizeStatus
    simp [hs, h1, h2, h3, h4, h5]
  · intro h
    have facts : ∀ k ∈ statusKeywords, containsSub (strUpper s) k = false := by
      intro k hk
      have := List.any_eq_false.mp (by simpa [hasAnyKw] using h) k hk
      simpa using this
    by_cases hs : (s == "") = true
    · have : s = "" := by simpa using hs
      rw [this]; rfl
    · unfold normalizeStatus
      simp only [hs, if_false, Bool.false_eq_true]
      simp [facts "OPEN" (by decide), facts "DONE" (by decide),
        facts "IN PROGRESS" (by decide), facts "READY" (by decide),
        facts "ACCEPTED" (by decide), facts "DRAFT" (by decide),
        facts "CLOSED" (by decide)]

/-- C6, witness: the amended normalization theorem applied to concrete
inputs, discharging each hypothesis by evaluation. -/
theorem c6_normalize_status_witness :
    normalizeStatus "ready to publish" = "READY FOR PUBLISHING" ∧
      normalizeStatus "Item DONE today" ∈ statusVocabulary ∧
      normalizeStatus "hello world" = "hello world" :=
  ⟨(c6_normalize_status "ready to publish").2.1 (by decide) (by decide)
      (by decide) (by decide) (by decide),
   (c6_normalize_status "Item DONE today").1 (by decide),
   (c6_normalize_status "hello world").2.2.1 (by decide)⟩

/-! Claim C8: table-type detection. -/

/-- C8: the table-type detector always yields one of the four categories,
yields "unknown" on a probing error, and otherwise returns the first of
standard_ui5, responsive_table, grid_table whose fingerprint count is
positive, "unknown" when all three counts are zero. -/
theorem c8_detect_table_type :
    (∀ probe, detectTableType probe ∈
      ["standard_ui5", "responsive_table", "grid_table", "unknown"]) ∧
    detectTableType none = "unknown" ∧
    ∀ s r g,
      (0 < s → detectTableType (some (s, r, g)) = "standard_ui5") ∧
      (s = 0 → 0 < r → detectTableType (some (s, r, g)) = "responsive_table") ∧
      (s = 0 → r = 0 → 0 < g → detectTableType (some (s, r, g)) = "grid_table") ∧
      (s = 0 → r = 0 → g = 0 → detectTableType (some (s, r, g)) = "unknown") := by
  refine ⟨?_, rfl, ?_⟩
  · intro p
    rcases p with _ | ⟨s, r, g⟩
    · simp [detectTableType]
    · simp only [detectTableType]
      split_ifs <;> simp
  · intro s r g
    refine ⟨?_, ?_, ?_, ?_⟩
    · intro hs; simp [detectTableType, hs]
    · intro hs hr; simp [detectTableType, hs, hr]
    · intro hs hr hg; simp [detectTableType, hs, hr, hg]
    · intro hs hr hg; simp [detectTableType, hs, hr, hg]

/-- C8, witness: the detection theorem applied to concrete probe counts,
discharging the ordering hypotheses by evaluation. -/
theorem c8_detect_table_type_witness :
    detectTableType (some (0, 3, 7)) = "responsive_table" :=
  (c8_detect_table_type.2.2 0 3 7).2.1 rfl (by decide)

/-! Claim C4: the scroll stopping policy. -/

theorem coverage90_iff (c t : Nat) :
    ((c : ℚ) ≥ (t : ℚ) * 0.9) ↔ 10 * c ≥ 9 * t := by
  constructor <;> intro h
  · have hq : (9 * t : ℚ) ≤ 10 * c := by linarith
    exact_mod_cast hq
  · have hq : (9 * t : ℚ) ≤ (10 * c : ℚ) := by exact_mod_cast h
    push_cast at hq
    linarith

theorem coverage95_iff (c t : Nat) (ht : 0 < t) :
    ((c : ℚ) / (t : ℚ) * 100 ≥ 95) ↔ 20 * c ≥ 19 * t := by
  have htq : (0 : ℚ) < t := by exact_mod_cast ht
  rw [ge_iff_le, div_mul_eq_mul_div, le_div_iff₀ htq]
  constructor <;> intro h
  · have hq : (19 * t : ℚ) ≤ 20 * c := by linarith
    exact_mod_cast hq
  · have hq : (19 * t : ℚ) ≤ (20 * c : ℚ) := by exact_mod_cast h
    push_cast at hq
    linarith

/-- C4, counterexample: with a no-change streak of 5 and 96 of 100
expected rows loaded, _should_finish_scrolling stops the scroll although
none of the claim's state-based criteria holds (count below the expected
total, streak below 10 and below 20): the code's additional
coverage ≥ 95 percent with streak ≥ 5 criterion fires. -/
theorem c4_counterexample :
    shouldFinishScrolling 5 96 100 = true ∧
      ¬(96 ≥ 100) ∧ ¬(5 ≥ 10) ∧ ¬(5 ≥ 20) := by
  refine ⟨?_, by omega, by omega, by omega⟩
  norm_num [shouldFinishScrolling]

/-- C4, amended: the stop predicate consulted on a no-change iteration
holds exactly when one of FIVE criteria does: streak ≥ 10 with count at
least 90 percent of the expected total, streak ≥ 20, count at least the
expected total, or the additional criterion coverage at least 95 percent
with streak ≥ 5 (for a positive expected total); reaching max_attempts
ends the loop independently. -/
theorem c4_stop_criteria (n c t : Nat) :
    shouldFinishScrolling n c t = true ↔
      (n ≥ 10 ∧ 10 * c ≥ 9 * t) ∨ n ≥ 20 ∨ c ≥ t ∨
        (0 < t ∧ 20 * c ≥ 19 * t ∧ n ≥ 5) := by
  simp only [shouldFinishScrolling]
  rcases Nat.eq_zero_or_pos t with ht | ht
  · subst ht
    constructor
    · intro _
      exact Or.inr (Or.inr (Or.inl (Nat.zero_le c)))
    · intro _
      by_cases hn : n ≥ 10
      · have hc0 : ((c : ℚ)) ≥ ((0 : Nat) : ℚ) * 0.9 := by push_cast; norm_num
        rw [if_pos ⟨hn, hc0⟩]
      · rw [if_neg (fun h => hn h.1)]
        by_cases hn2 : n ≥ 20
        · rw [if_pos hn2]
        · rw [if_neg hn2, if_pos (Nat.zero_le c)]
  · have hcov := coverage95_iff c t ht
    have h09 := coverage90_iff c t
    rw [if_pos ht]
    split_ifs with h1 h2 h3 h4
    · simp only [true_iff]
      exact Or.inl ⟨h1.1, h09.mp h1.2⟩
    · simp only [true_iff]
      exact Or.inr (Or.inl h2)
    · simp only [true_iff]
      exact Or.inr (Or.inr (Or.inl h3))
    · simp only [true_iff]
      exact Or.inr (Or.inr (Or.inr ⟨ht, hcov.mp h4.1, h4.2⟩))
    · simp only [false_iff]
      intro hor
      rcases hor with ⟨hn, hc⟩ | hn | hc | ⟨-, hc, hn⟩
      · exact h1 ⟨hn, h09.mpr hc⟩
      · exact h2 hn
      · exact h3 hc
      · exact h4 ⟨hcov.mpr hc, hn⟩

/-! Claim C9: the scroll loop never raises, is bounded, and returns the
last observed count. -/

theorem scrollLoop_lastObserved (events : List IterEvent) :
    ∀ (hasPag : Bool) (total prev streak : Nat),
      ∃ k, k ≤ events.length ∧
        scrollLoop hasPag total prev streak events = lastObserved prev (events.take k) := by
  induction events with
  | nil =>
    exact fun _ _ _ _ => ⟨0, Nat.le_refl 0, rfl⟩
  | cons e rest ih =>
    intro hasPag total prev streak
    obtain ⟨ok, rows, pag, late⟩ := e
    cases ok with
    | false =>
      obtain ⟨k, hk, hrec⟩ := ih hasPag total prev streak
      refine ⟨k + 1, by simpa using Nat.succ_le_succ hk, ?_⟩
      simp [scrollLoop, lastObserved, hrec]
    | true =>
      by_cases heq : rows = prev
      · subst heq
        by_cases hpag : hasPag = true ∧ streak + 1 ≥ 5
        · obtain ⟨hp1, hp2⟩ := hpag
          subst hp1
          cases pag with
          | clicked =>
            obtain ⟨k, hk, hrec⟩ := ih true total rows 0
            refine ⟨k + 1, by simpa using Nat.succ_le_succ hk, ?_⟩
            simp [scrollLoop, hp2, lastObserved, hrec]
          | raised =>
            obtain ⟨k, hk, hrec⟩ := ih true total rows (streak + 1)
            refine ⟨k + 1, by simpa using Nat.succ_le_succ hk, ?_⟩
            simp [scrollLoop, hp2, lastObserved, hrec]
          | noClick =>
            by_cases hfin : shouldFinishScrolling (streak + 1) rows total = true
            · refine ⟨1, by simp, ?_⟩
              simp [scrollLoop, hp2, hfin, lastObserved]
            · by_cases hge : rows ≥ total
              · refine ⟨1, by simp, ?_⟩
                simp [scrollLoop, hp2, hfin, hge, lastObserved]
              · obtain ⟨k, hk, hrec⟩ := ih true total rows (streak + 1)
                refine ⟨k + 1, by simpa using Nat.succ_le_succ hk, ?_⟩
                simp [scrollLoop, hp2, hfin, hge, lastObserved, hrec]
        · by_cases hfin : shouldFinishScrolling (streak + 1) rows total = true
          · refine ⟨1, by simp, ?_⟩
            simp [scrollLoop, hfin, lastObserved]
            try (intro hp1 hp2; exact absurd ⟨hp1, by omega⟩ hpag)
          · by_cases hge : rows ≥ total
            · refine ⟨1, by simp, ?_⟩
              simp [scrollLoop, hfin, hge, lastObserved]
              try (intro hp1 hp2; exact absurd ⟨hp1, by omega⟩ hpag)
            · obtain ⟨k, hk, hrec⟩ := ih hasPag total rows (streak + 1)
              refine ⟨k + 1, by simpa using Nat.succ_le_succ hk, ?_⟩
              simp [scrollLoop, hfin, hge, lastObserved, hrec]
              try (intro hp1 hp2; exact absurd ⟨hp1, by omega⟩ hpag)
      · by_cases hge : rows ≥ total
        · refine ⟨1, by simp, ?_⟩
          simp [scrollLoop, heq, hge, lastObserved]
        · obtain ⟨k, hk, hrec⟩ := ih hasPag total rows 0
          refine ⟨k + 1, by simpa using Nat.succ_le_succ hk, ?_⟩
          simp [scrollLoop, heq, hge, lastObserved, hrec]

theorem scrollLoop_all_fail (events : List IterEvent) :
    ∀ (hasPag : Bool) (total prev streak : Nat),
      (∀ e ∈ events, e.scrollOk = false) →
        scrollLoop hasPag total prev streak events = prev := by
  induction events with
  | nil => intros; rfl
  | cons e rest ih =>
    intro hasPag total prev streak h
    have he : e.scrollOk = false := h e (List.mem_cons_self e rest)
    have hrest : ∀ x ∈ rest, x.scrollOk = false :=
      fun x hx => h x (List.mem_cons_of_mem e hx)
    simp [scrollLoop, he, ih _ _ _ _ hrest]

/-- C9: for every pagination mode, expected total, and stream of
per-iteration events (one per potential iteration of
range(max_attempts), including events that model exceptions raised and
caught inside an iteration), scroll_to_load_all_items returns without
raising, processes at most max_attempts iterations, and returns the row
count last observed by find_table_rows over those iterations; when no
iteration ever observed rows the result is 0. -/
theorem c9_scroll_returns_last_observed (hasPagination : Bool)
    (totalExpected : Nat) (events : List IterEvent) :
    (∃ k, k ≤ events.length ∧
      scrollToLoadAllItems hasPagination totalExpected events =
        lastObserved 0 (events.take k)) ∧
    ((∀ e ∈ events, e.scrollOk = false) →
      scrollToLoadAllItems hasPagination totalExpected events = 0) :=
  ⟨scrollLoop_lastObserved events hasPagination totalExpected 0 0,
   fun h => scrollLoop_all_fail events hasPagination totalExpected 0 0 h⟩

/-- C9, witness: the theorem applied to a concrete event stream in which
every iteration fails before observing rows, discharging the hypothesis
by evaluation. -/
theorem c9_scroll_witness :
    scrollToLoadAllItems false 50
      [⟨false, 7, .noClick, false⟩, ⟨false, 9, .raised, true⟩] = 0 :=
  (c9_scroll_returns_last_observed false 50
    [⟨false, 7, .noClick, false⟩, ⟨false, 9, .raised, true⟩]).2 (by decide)

/-! Claim C1: deduplication across the harvest. -/

theorem processTableRowsAux_length (headerMap : List (String × Nat)) :
    ∀ (index : Nat) (rows : List Row),
      (processTableRowsAux headerMap index rows).length = rows.length := by
  intro index rows
  induction rows generalizing index with
  | nil => rfl
  | cons r rs ih => simp [processTableRowsAux, ih]

/-- C1, counterexample: a single-page harvest of two rows with the same
extracted title returns two records whose Titles are equal under
case-insensitive comparison, so the returned sequence is not
deduplicated. -/
theorem c1_counterexample :
    (extractIssuesData [] false
      [[⟨[], "Task A", fun _ => "", "", "", "", "", "", ""⟩,
        ⟨[], "Task A", fun _ => "", "", "", "", "", "", ""⟩]]).map
        (fun r => strUpper r.title) = ["TASK A", "TASK A"] := by decide

/-- C1, amended: the extraction applies no deduplication at all: the
seen_titles set passed through _process_table_rows never affects the
result, every row contributes exactly one record, and a single-page
harvest returns the validated record of every row unfiltered. -/
theorem c1_no_deduplication :
    (∀ (headerMap : List (String × Nat)) (seen : List String) (rows : List Row),
      processTableRows headerMap seen rows = processTableRows headerMap [] rows) ∧
    (∀ (headerMap : List (String × Nat)) (seen : List String) (rows : List Row),
      (processTableRows headerMap seen rows).length = rows.length) ∧
    (∀ (headerMap : List (String × Nat)) (page : List Row),
      extractIssuesData headerMap false [page] =
        (processTableRows headerMap [] page).map validate) := by
  refine ⟨fun _ _ _ => rfl, fun hm _ rows => processTableRowsAux_length hm 0 rows, ?_⟩
  intro hm page
  unfold extractIssuesData extractPagesAux
  simp only [Nat.lt_irrefl]
  by_cases hp : page.isEmpty
  · have : page = [] := by simpa [List.isEmpty_iff] using hp
    subst this
    simp [processTableRows, processTableRowsAux]
  · simp [hp]

/-! Claim C5: non-empty titles. -/

theorem heuristicTitle_ne_empty (index : Nat) (row : Row) :
    heuristicTitle index row ≠ "" := by
  unfold heuristicTitle
  split
  · intro hc
    have := congrArg String.data hc
    rw [String.data_append] at this
    simp at this
  · rename_i hb
    simpa using fun hc => hb (by simp [hc])

theorem heuristicRecord_title_of_not_direct (i : Nat) (row : Row)
    (h : row.extType (heuristicTitle i row) ≠ heuristicTitle i row ∨
      row.cells.length < 8) :
    (heuristicRecord i row).title = heuristicTitle i row := by
  have hcond : ¬((row.extType (heuristicTitle i row) == heuristicTitle i row) ∧
      8 ≤ row.cells.length) := by
    rcases h with h | h
    · exact fun hc => h (by simpa using hc.1)
    · exact fun hc => absurd hc.2 (by omega)
  simp only [heuristicRecord]
  rw [validate_title, if_neg hcond]

theorem processRow_title_of_not_direct (hm : List (String × Nat)) (i : Nat)
    (row : Row)
    (h : row.extType (heuristicTitle i row) ≠ heuristicTitle i row ∨
      row.cells.length < 8) :
    (processRow hm i row).title ≠ "" := by
  unfold processRow
  by_cases hlen : 4 ≤ hm.length
  · rw [if_pos hlen]
    rcases hext : extractByHeaders row.cells hm with _ | d
    · simp only [hext]
      rw [heuristicRecord_title_of_not_direct _ _ h]
      exact heuristicTitle_ne_empty i row
    · simp only [hext]
      by_cases hT : (d.title != "") = true
      · simp only [hT, if_pos]
        rw [validate_title]
        simpa using hT
      · simp only [hT, if_neg, Bool.false_eq_true]
        rw [if_neg not_false, heuristicRecord_title_of_not_direct _ _ h]
        exact heuristicTitle_ne_empty i row
  · rw [if_neg hlen]
    rw [heuristicRecord_title_of_not_direct _ _ h]
    exact heuristicTitle_ne_empty i row

theorem processRow_title_synthesized (hm : List (String × Nat)) (i : Nat)
    (row : Row) (hlen : hm.length < 4) (hti : row.extTitle = "")
    (h : row.extType (heuristicTitle i row) ≠ heuristicTitle i row ∨
      row.cells.length < 8) :
    (processRow hm i row).title = "Issue sin título #" ++ toString (i + 1) := by
  unfold processRow
  rw [if_neg (by omega)]
  rw [heuristicRecord_title_of_not_direct _ _ h]
  unfold heuristicTitle
  rw [if_pos (by simp [hti])]

theorem guarded_extType_ne_title (i : Nat) (row : Row)
    (hg : ExtractTypeGuarded row) :
    row.extType (heuristicTitle i row) ≠ heuristicTitle i row := by
  rcases hg (heuristicTitle i row) with h | h
  · rw [h]
    exact Ne.symm (heuristicTitle_ne_empty i row)
  · exact h

/-- C5, counterexample: the header-based path's fallback placeholder
omits the row position.  A row whose four headers are all unrecognized
and whose first cell's text is empty is accepted by the header path with
the Title "Issue sin título" — not "Issue sin título #1" as the claim
states for a row at position 1 from which no title could be
extracted. -/
theorem c5_counterexample :
    (processRow [("Alpha", 0), ("Beta", 1), ("Gamma", 2), ("Delta", 3)] 0
        ⟨[⟨""⟩, ⟨"x"⟩, ⟨"y"⟩, ⟨"z"⟩], "", fun _ => "", "", "", "", "", "",
         ""⟩).title = "Issue sin título" ∧
      ("Issue sin título" : String) ≠ "Issue sin título #1" := by decide

/-- C5, amended: for every row whose _extract_type outcome satisfies the
source's return contract (empty, or different from the passed title),
the produced Record's Title is non-empty on every path: the header path
only accepts a record with non-empty Title, and in the heuristic path
the direct-by-cells override never fires (its guard Type = Title cannot
hold, the heuristic title being non-empty), so the Title is the
extracted title or the synthesized "Issue sin título #N" (N the 1-based
position).  The header path's internal fallback, however, synthesizes
"Issue sin título" without the position number. -/
theorem c5_title_nonempty_guarded :
    (∀ (hm : List (String × Nat)) (i : Nat) (row : Row),
      ExtractTypeGuarded row → (processRow hm i row).title ≠ "") ∧
    (∀ (hm : List (String × Nat)) (i : Nat) (row : Row),
      hm.length < 4 → row.extTitle = "" → ExtractTypeGuarded row →
      (processRow hm i row).title = "Issue sin título #" ++ toString (i + 1)) :=
  ⟨fun hm i row hg =>
    processRow_title_of_not_direct hm i row
      (Or.inl (guarded_extType_ne_title i row hg)),
   fun hm i row hlen hti hg =>
    processRow_title_synthesized hm i row hlen hti
      (Or.inl (guarded_extType_ne_title i row hg))⟩

/-- C5, witness: the amended theorem applied to a concrete guarded row
without an extractable title, the hypotheses discharged by evaluation
and an explicit term for the guard. -/
theorem c5_title_nonempty_guarded_witness :
    (processRow [] 4 ⟨[], "", fun _ => "", "", "", "", "", "", ""⟩).title =
        "Issue sin título #5" ∧
      (processRow [] 4 ⟨[], "", fun _ => "", "", "", "", "", "", ""⟩).title ≠ "" :=
  ⟨c5_title_nonempty_guarded.2 [] 4
      ⟨[], "", fun _ => "", "", "", "", "", "", ""⟩ (by decide) rfl
      (fun _ => Or.inl rfl),
   c5_title_nonempty_guarded.1 [] 4
      ⟨[], "", fun _ => "", "", "", "", "", "", ""⟩ (fun _ => Or.inl rfl)⟩

end Extractor
